import Mathlib

/-! Scaling handler of the gateway (`gateway/handlers/scaling.go`)

A shallow embedding of `MakeScalingHandler` and of the objects its closure touches:
the response writer, the request, the wall clock, the logger, the function scaler
and the next handler. Mutable Go objects are passed explicitly in a `World`; a
runtime panic is an outcome of its own.
-/

namespace Handlers

/-! ## net/http and net/textproto: headers -/

/-- Header is `http.Header`, a map from a name to the values stored under it, in
order. A key that is absent from the Go map reads as the empty slice. -/
abbrev Header := String → List String

/-- The bytes `net/textproto` accepts in a header field name (RFC 7230 token
characters): letters, digits and the listed punctuation. -/
def validHeaderFieldByte (c : Char) : Bool :=
  c.isAlphanum ||
    ['!', '#', '$', '%', '&', Char.ofNat 39, '*', '+', '-', '.', '^', '_',
      Char.ofNat 96, '|', '~'].contains c

/-- The rewriting loop of `canonicalMIMEHeaderKey`: a letter is upper-cased at the
start and after each dash and lower-cased elsewhere; `upper` is the loop flag. -/
def canonicalLoop : Bool → List Char → List Char
  | _, [] => []
  | upper, c :: cs =>
    let c := if upper && c.isLower then c.toUpper
             else if !upper && c.isUpper then c.toLower
             else c
    c :: canonicalLoop (c == '-') cs

/-- `textproto.CanonicalMIMEHeaderKey`: a key holding a byte that is not a
header field byte (a space included) is returned unchanged, any other key is
rewritten by the canonicalisation loop. -/
def CanonicalMIMEHeaderKey (s : String) : String :=
  if s.data.all validHeaderFieldByte then String.mk (canonicalLoop true s.data) else s

/-- `Header.Add(key, value)`: append `value` to the values stored under the
canonical form of `key`; every other key is left as it is. -/
def Header.Add (h : Header) (key value : String) : Header :=
  let key := CanonicalMIMEHeaderKey key
  fun k => if k = key then h k ++ [value] else h k

/-! ## net/http: response writer and request -/

/-- A call made on the `http.ResponseWriter`, other than on its header map. -/
inductive WriterCall where
  | WriteHeader (statusCode : Nat)
  | Write (b : String)
  deriving DecidableEq, Repr

/-- The `http.ResponseWriter` interface, as a recorder: its header map and the
`WriteHeader` and `Write` calls it has received, oldest first. -/
structure ResponseWriter where
  calls : List WriterCall
  Header : Header

/-- The part of `*http.Request` the handler uses: `URL.String()` and `Header`. -/
structure Request where
  URL : String
  Header : Header

/-- `http.StatusNotFound`. -/
def StatusNotFound : Nat := 404

/-- `http.StatusInternalServerError`. -/
def StatusInternalServerError : Nat := 500

/-- `w.WriteHeader(statusCode)`. -/
def ResponseWriter.WriteHeader (w : ResponseWriter) (statusCode : Nat) : ResponseWriter :=
  { w with calls := w.calls ++ [WriterCall.WriteHeader statusCode] }

/-- `w.Write(b)`. -/
def ResponseWriter.Write (w : ResponseWriter) (b : String) : ResponseWriter :=
  { w with calls := w.calls ++ [WriterCall.Write b] }

/-- The status codes among a list of writer calls, in order. -/
def statusCodes : List WriterCall → List Nat
  | [] => []
  | WriterCall.WriteHeader c :: cs => c :: statusCodes cs
  | WriterCall.Write _ :: cs => statusCodes cs

/-- `http.HandlerFunc`, for the next handler: what `ServeHTTP(w, r)` leaves of
the writer and the request it was given. -/
abbrev HandlerFunc := ResponseWriter → Request → ResponseWriter × Request

/-! ## fmt, log, time -/

/-- `fmt.Sprintf("%d", n)` for an `int64`: the base-10 rendering, with a leading
minus sign for a negative number. -/
def sprintfD (n : Int) : String :=
  match n with
  | Int.ofNat m => Nat.repr m
  | Int.negSucc m => "-" ++ Nat.repr (m + 1)

/-- The number a list of decimal digits denotes, most significant digit first. -/
def decimalValue (cs : List Char) : Nat :=
  cs.foldl (fun acc c => 10 * acc + (c.toNat - 48)) 0

/-- Whether `cs` is the base-10 numeral of `m`: at least one character, decimal
digits only, no leading zero except in the numeral "0", and of value `m`. -/
def isBase10Numeral (m : Nat) (cs : List Char) : Bool :=
  !cs.isEmpty && cs.all Char.isDigit && (cs.head? != some '0' || cs == ['0'])
    && decimalValue cs == m

/-- What the specification calls the base-10 integer rendering, stated without
`sprintfD`: `v` is the numeral of `n` when `n` is not negative, and a minus sign
followed by the numeral of `-n` when it is. -/
def isBase10 (n : Int) (v : String) : Bool :=
  match n, v.data with
  | Int.ofNat m, cs => isBase10Numeral m cs
  | Int.negSucc m, '-' :: cs => isBase10Numeral (m + 1) cs
  | Int.negSucc _, _ => false

/-- An argument of a `log.Printf` call: a string for `%s`, or a duration whose
`Seconds()` is printed with `%f` (kept as the duration in nanoseconds). -/
inductive LogArg where
  | str (s : String)
  | seconds (d : Int)
  deriving DecidableEq, Repr

/-- One `log.Printf` call: its format string and its arguments. -/
structure LogEntry where
  format : String
  args : List LogArg
  deriving DecidableEq, Repr

/-! ## gateway/scaling: the scaler's interface -/

/-- The fields of `scaling.FunctionScaleResult` the handler reads. `Error` is
`none` for a nil error and `some e` for an error whose `Error()` is `e`;
`Duration` is in nanoseconds. -/
structure FunctionScaleResult where
  Available : Bool
  Error : Option String
  Found : Bool
  Duration : Int
  SendSetReplicasTs : String
  ResponseSetReplicasTs : String

/-- The `scaling.FunctionScaler` built by `scaling.NewFunctionScaler(config)`:
`Scale functionName clock` is called when the wall clock reads `clock` and
gives the result together with the reading of the clock when it returns. -/
structure FunctionScaler where
  Scale : String → Int → FunctionScaleResult × Int

/-! ## The handler -/

/-- Everything mutable the handler can reach. `clock` is what
`time.Now().UTC().UnixNano()` reads; `served` lists the arguments of the calls
of `next.ServeHTTP` made so far, oldest first. -/
structure World where
  w : ResponseWriter
  r : Request
  clock : Int
  log : List LogEntry
  served : List (ResponseWriter × Request)

/-- `log.Printf(format, args...)`. -/
def World.Printf (s : World) (format : String) (args : List LogArg) : World :=
  { s with log := s.log ++ [{ format := format, args := args }] }

/-- How a call of the handler ends: it returns, or a runtime panic unwinds it;
either way with the world as it was then. -/
inductive Outcome where
  | returned (s : World)
  | panicked (s : World)

/-- The world at the end of the call. -/
def Outcome.world : Outcome → World
  | Outcome.returned s => s
  | Outcome.panicked s => s

/-- Whether the call ended in a panic. -/
def Outcome.isPanic : Outcome → Bool
  | Outcome.returned _ => false
  | Outcome.panicked _ => true

/-- `fmt.Sprintf("error finding function %s: %s", functionName, e)`. -/
def errStr (functionName e : String) : String :=
  "error finding function " ++ functionName ++ ": " ++ e

/-- `MakeScalingHandler(next, config)`, applied to one request. The scaler
`scaling.NewFunctionScaler(config)` and `getServiceName` (another file of the
package) are parameters. `res.Error.Error()` on a nil `Error` panics. -/
def MakeScalingHandler (next : HandlerFunc) (scaler : FunctionScaler)
    (getServiceName : String → String) (s : World) : Outcome :=
  let scaleStartTs := s.clock
  let s := s.Printf "Getting service name" []
  let functionName := getServiceName s.r.URL
  let s := s.Printf "Check function scale" []
  let res := (scaler.Scale functionName s.clock).1
  let s := { s with clock := (scaler.Scale functionName s.clock).2 }
  let s := s.Printf "Add headers.." []
  if !res.Found then
    match res.Error with
    | none => Outcome.panicked s
    | some e =>
      let errStr := errStr functionName e
      let s := s.Printf "Scaling: %s" [LogArg.str errStr]
      let s := { s with w := s.w.WriteHeader StatusNotFound }
      let s := { s with w := s.w.Write errStr }
      Outcome.returned s
  else
    match res.Error with
    | some e =>
      let errStr := errStr functionName e
      let s := s.Printf "Scaling: %s" [LogArg.str errStr]
      let s := { s with w := s.w.WriteHeader StatusInternalServerError }
      let s := { s with w := s.w.Write errStr }
      Outcome.returned s
    | none =>
      let s := s.Printf "Adding start and post scale timestamps on request header" []
      let s := { s with w := { s.w with Header := s.w.Header.Add "X-Scale-Start-Time" (sprintfD scaleStartTs) } }
      let s := { s with r := { s.r with Header := s.r.Header.Add "X-Scale-Start-Time" (sprintfD scaleStartTs) } }
      let s := { s with w := { s.w with Header := s.w.Header.Add "X-Scale-Post-Send-Time" res.SendSetReplicasTs } }
      let s := { s with r := { s.r with Header := s.r.Header.Add "X-Scale-Post-Send-Time" res.SendSetReplicasTs } }
      let s := { s with w := { s.w with Header := s.w.Header.Add "X-Scale-Post-Response-Time" res.ResponseSetReplicasTs } }
      let s := { s with r := { s.r with Header := s.r.Header.Add "X-Scale-Post-Response-Time" res.ResponseSetReplicasTs } }
      if res.Available then
        let s := { s with served := s.served ++ [(s.w, s.r)] }
        let s := { s with w := (next s.w s.r).1, r := (next s.w s.r).2 }
        Outcome.returned s
      else
        let s := s.Printf "[Scale] function=%s 0=>N timed-out after %f seconds"
          [LogArg.str functionName, LogArg.seconds res.Duration]
        Outcome.returned s

/-- The result the scaler hands the handler for the request of `s`: that of
`scaler.Scale(getServiceName(r.URL.String()))`, called with the clock of `s`. -/
def scaleResult (scaler : FunctionScaler) (getServiceName : String → String)
    (s : World) : FunctionScaleResult :=
  (scaler.Scale (getServiceName s.r.URL) s.clock).1

/-- The names of the three timing headers. -/
def timingHeaders : List String :=
  ["X-Scale-Start-Time", "X-Scale-Post-Send-Time", "X-Scale-Post-Response-Time"]

/-- `LeftAs next s out w r`: the handler, started in `s` and ended as `out`, left
the writer as `w` and the request as `r`. Either it made one call of
`next.ServeHTTP`, with exactly `w` and `r`, and ended with what that call made
of them; or it made no such call and `w` and `r` are the final writer and
request. -/
def LeftAs (next : HandlerFunc) (s : World) (out : Outcome)
    (w : ResponseWriter) (r : Request) : Prop :=
  (out.world.served = s.served ++ [(w, r)] ∧
      out.world.w = (next w r).1 ∧ out.world.r = (next w r).2) ∨
    (out.world.served = s.served ∧ out.world.w = w ∧ out.world.r = r)

/-! ## Sample inputs -/

/-- A scaler that answers every call with `res`, five nanoseconds later. -/
def constScaler (res : FunctionScaleResult) : FunctionScaler :=
  { Scale := fun _ clock => (res, clock + 5) }

/-- A next handler that answers 200 with the body "ok". -/
def okNext : HandlerFunc :=
  fun w r => ((w.WriteHeader 200).Write "ok", r)

/-- A service-name extraction that finds "figlet" in every URL. -/
def figletName : String → String :=
  fun _ => "figlet"

/-- A fresh exchange whose request already carries an `X-Scale-Start-Time`. -/
def sampleWorld : World :=
  { w := { calls := [], Header := fun _ => [] }
    r := { URL := "/function/figlet"
           Header := fun k => if k = "X-Scale-Start-Time" then ["7"] else [] }
    clock := 1000
    log := []
    served := [] }

/-- Unknown function: not found, with an error. -/
def resNotFound : FunctionScaleResult :=
  { Available := false, Error := some "no such service", Found := false,
    Duration := 3, SendSetReplicasTs := "", ResponseSetReplicasTs := "" }

/-- Found, but the scale call failed. -/
def resFailed : FunctionScaleResult :=
  { Available := false, Error := some "unable to scale", Found := true,
    Duration := 3, SendSetReplicasTs := "1001", ResponseSetReplicasTs := "1002" }

/-- Found and ready. -/
def resAvailable : FunctionScaleResult :=
  { Available := true, Error := none, Found := true,
    Duration := 3, SendSetReplicasTs := "1001", ResponseSetReplicasTs := "1002" }

/-- Found, no error, but not ready in time. -/
def resTimedOut : FunctionScaleResult :=
  { Available := false, Error := none, Found := true,
    Duration := 3, SendSetReplicasTs := "1001", ResponseSetReplicasTs := "1002" }

/-- Not found and no error. -/
def resNotFoundNoError : FunctionScaleResult :=
  { Available := false, Error := none, Found := false,
    Duration := 3, SendSetReplicasTs := "", ResponseSetReplicasTs := "" }

/-! ## Lemmas on headers -/

theorem Header.Add_apply (h : Header) (key value k : String) :
    (h.Add key value) k
      = if k = CanonicalMIMEHeaderKey key then h k ++ [value] else h k := rfl

theorem canonical_start :
    CanonicalMIMEHeaderKey "X-Scale-Start-Time" = "X-Scale-Start-Time" := by decide

theorem canonical_send :
    CanonicalMIMEHeaderKey "X-Scale-Post-Send-Time" = "X-Scale-Post-Send-Time" := by decide

theorem canonical_response :
    CanonicalMIMEHeaderKey "X-Scale-Post-Response-Time" = "X-Scale-Post-Response-Time" := by
  decide

/-- The header map after the three `Add` calls of the handler. -/
def annotate (h : Header) (start send response : String) : Header :=
  ((h.Add "X-Scale-Start-Time" start).Add "X-Scale-Post-Send-Time" send).Add
    "X-Scale-Post-Response-Time" response

theorem annotate_start (h : Header) (a b c : String) :
    annotate h a b c "X-Scale-Start-Time" = h "X-Scale-Start-Time" ++ [a] := by
  simp [annotate, Header.Add_apply, canonical_start, canonical_send, canonical_response]

theorem annotate_send (h : Header) (a b c : String) :
    annotate h a b c "X-Scale-Post-Send-Time" = h "X-Scale-Post-Send-Time" ++ [b] := by
  simp [annotate, Header.Add_apply, canonical_start, canonical_send, canonical_response]

theorem annotate_response (h : Header) (a b c : String) :
    annotate h a b c "X-Scale-Post-Response-Time"
      = h "X-Scale-Post-Response-Time" ++ [c] := by
  simp [annotate, Header.Add_apply, canonical_start, canonical_send, canonical_response]

theorem annotate_other (h : Header) (a b c k : String) (hk : k ∉ timingHeaders) :
    annotate h a b c k = h k := by
  simp only [timingHeaders, List.mem_cons, List.mem_singleton, not_or, List.not_mem_nil,
    or_false] at hk
  simp [annotate, Header.Add_apply, canonical_start, canonical_send, canonical_response, hk]

theorem Header.Add_keeps (h : Header) (key value k : String) :
    h k <+: (h.Add key value) k := by
  rw [Header.Add_apply]
  split_ifs
  · exact List.prefix_append _ _
  · exact List.prefix_refl _

theorem annotate_keeps (h : Header) (a b c k : String) :
    h k <+: annotate h a b c k :=
  (Header.Add_keeps h _ a k).trans
    ((Header.Add_keeps _ _ b k).trans (Header.Add_keeps _ _ c k))

/-! ## Lemmas on the rendering of integers -/

theorem digitChar_facts : ∀ k, k < 10 →
    (Nat.digitChar k).isDigit = true ∧ (Nat.digitChar k).toNat - 48 = k ∧
      (Nat.digitChar k = '0' → k = 0) := by
  decide

theorem decimalValue_append (pre : List Char) (d : Char) :
    decimalValue (pre ++ [d]) = 10 * decimalValue pre + (d.toNat - 48) := by
  simp [decimalValue, List.foldl_append]

/-- With enough fuel the digit loop behind `Nat.repr` puts the numeral of `n` in
front of what it was given. -/
theorem toDigitsCore_numeral (fuel : Nat) : ∀ (n : Nat) (ds : List Char), n < fuel →
    ∃ pre, Nat.toDigitsCore 10 fuel n ds = pre ++ ds ∧ pre ≠ [] ∧
      (∀ c ∈ pre, c.isDigit = true) ∧ (pre.head? = some '0' → pre = ['0']) ∧
      decimalValue pre = n := by
  induction fuel with
  | zero => intro n ds h; omega
  | succ fuel ih =>
    intro n ds hn
    have hd := digitChar_facts (n % 10) (Nat.mod_lt _ (by decide))
    simp only [Nat.toDigitsCore]
    split_ifs with h0
    · have hlt : n < 10 := by omega
      have hmod : n % 10 = n := Nat.mod_eq_of_lt hlt
      refine ⟨[Nat.digitChar (n % 10)], rfl, by simp, ?_, ?_, ?_⟩
      · intro c hc
        simp only [List.mem_singleton] at hc
        rw [hc]; exact hd.1
      · intro hh
        simp only [List.head?_cons, Option.some.injEq] at hh
        rw [hh]
      · simp only [decimalValue, List.foldl_cons, List.foldl_nil, Nat.mul_zero, Nat.zero_add]
        rw [hd.2.1, hmod]
    · have hlt : n / 10 < fuel := by omega
      obtain ⟨pre, he, hne, hdig, hhead, hval⟩ :=
        ih (n / 10) (Nat.digitChar (n % 10) :: ds) hlt
      refine ⟨pre ++ [Nat.digitChar (n % 10)], ?_, by simp, ?_, ?_, ?_⟩
      · rw [he]; simp
      · intro c hc
        rcases List.mem_append.mp hc with hc | hc
        · exact hdig c hc
        · simp only [List.mem_singleton] at hc
          rw [hc]; exact hd.1
      · intro hh
        exfalso
        cases pre with
        | nil => exact hne rfl
        | cons a as =>
          simp only [List.cons_append, List.head?_cons, Option.some.injEq] at hh
          have := hhead (by simp [hh])
          rw [this] at hval
          simp [decimalValue] at hval
          omega
      · rw [decimalValue_append, hval, hd.2.1]
        omega

theorem repr_isBase10Numeral (m : Nat) : isBase10Numeral m (Nat.repr m).data = true := by
  obtain ⟨pre, he, hne, hdig, hhead, hval⟩ := toDigitsCore_numeral (m + 1) m [] (by omega)
  have hrepr : (Nat.repr m).data = pre := by
    simp [Nat.repr, Nat.toDigits, he, List.asString]
  rw [hrepr]
  simp only [isBase10Numeral, Bool.and_eq_true, Bool.not_eq_true', Bool.or_eq_true,
    bne_iff_ne, ne_eq, beq_iff_eq, List.all_eq_true, List.isEmpty_eq_false]
  refine ⟨⟨⟨?_, hdig⟩, ?_⟩, hval⟩
  · simpa using hne
  · by_cases h : pre.head? = some '0'
    · exact Or.inr (hhead h)
    · exact Or.inl h

/-- What `sprintfD` makes of an integer is its base-10 rendering. -/
theorem sprintfD_isBase10 (n : Int) : isBase10 n (sprintfD n) = true := by
  cases n with
  | ofNat m => simp only [isBase10, sprintfD]; exact repr_isBase10Numeral m
  | negSucc m =>
    have h := repr_isBase10Numeral (m + 1)
    simp only [isBase10, sprintfD, String.data_append]
    exact h

theorem sprintfD_samples :
    sprintfD 1000 = "1000" ∧ sprintfD 0 = "0" ∧ sprintfD (-25) = "-25" ∧
      sprintfD 1700000000000000000 = "1700000000000000000" := by
  decide

theorem isBase10_samples :
    isBase10 1000 "1000" = true ∧ isBase10 1000 "" = false ∧
      isBase10 1000 "01000" = false ∧ isBase10 1000 "1e3" = false ∧
      isBase10 1000 "1001" = false ∧ isBase10 (-25) "-25" = true ∧
      isBase10 (-25) "25" = false ∧ isBase10 0 "-0" = false := by
  decide

/-! ## The paths of the handler -/

theorem handler_notFound (next : HandlerFunc) (scaler : FunctionScaler)
    (gsn : String → String) (s : World) (e : String)
    (hf : (scaleResult scaler gsn s).Found = false)
    (he : (scaleResult scaler gsn s).Error = some e) :
    MakeScalingHandler next scaler gsn s = Outcome.returned
      { w := { calls := s.w.calls ++
                 [WriterCall.WriteHeader 404, WriterCall.Write (errStr (gsn s.r.URL) e)]
               Header := s.w.Header }
        r := s.r
        clock := (scaler.Scale (gsn s.r.URL) s.clock).2
        log := s.log ++ [⟨"Getting service name", []⟩, ⟨"Check function scale", []⟩,
          ⟨"Add headers..", []⟩, ⟨"Scaling: %s", [LogArg.str (errStr (gsn s.r.URL) e)]⟩]
        served := s.served } := by
  simp only [scaleResult] at hf he
  simp [MakeScalingHandler, World.Printf, hf, he, ResponseWriter.WriteHeader,
    ResponseWriter.Write, StatusNotFound]

theorem handler_failed (next : HandlerFunc) (scaler : FunctionScaler)
    (gsn : String → String) (s : World) (e : String)
    (hf : (scaleResult scaler gsn s).Found = true)
    (he : (scaleResult scaler gsn s).Error = some e) :
    MakeScalingHandler next scaler gsn s = Outcome.returned
      { w := { calls := s.w.calls ++
                 [WriterCall.WriteHeader 500, WriterCall.Write (errStr (gsn s.r.URL) e)]
               Header := s.w.Header }
        r := s.r
        clock := (scaler.Scale (gsn s.r.URL) s.clock).2
        log := s.log ++ [⟨"Getting service name", []⟩, ⟨"Check function scale", []⟩,
          ⟨"Add headers..", []⟩, ⟨"Scaling: %s", [LogArg.str (errStr (gsn s.r.URL) e)]⟩]
        served := s.served } := by
  simp only [scaleResult] at hf he
  simp [MakeScalingHandler, World.Printf, hf, he, ResponseWriter.WriteHeader,
    ResponseWriter.Write, StatusInternalServerError]

theorem handler_nilError (next : HandlerFunc) (scaler : FunctionScaler)
    (gsn : String → String) (s : World)
    (hf : (scaleResult scaler gsn s).Found = false)
    (he : (scaleResult scaler gsn s).Error = none) :
    MakeScalingHandler next scaler gsn s = Outcome.panicked
      { w := s.w
        r := s.r
        clock := (scaler.Scale (gsn s.r.URL) s.clock).2
        log := s.log ++ [⟨"Getting service name", []⟩, ⟨"Check function scale", []⟩,
          ⟨"Add headers..", []⟩]
        served := s.served } := by
  simp only [scaleResult] at hf he
  simp [MakeScalingHandler, World.Printf, hf, he]

/-- The writer after the three `Add` calls on its header map. -/
def annotatedWriter (scaler : FunctionScaler) (gsn : String → String) (s : World) :
    ResponseWriter :=
  { calls := s.w.calls
    Header := annotate s.w.Header (sprintfD s.clock)
      (scaleResult scaler gsn s).SendSetReplicasTs
      (scaleResult scaler gsn s).ResponseSetReplicasTs }

/-- The request after the three `Add` calls on its header map. -/
def annotatedRequest (scaler : FunctionScaler) (gsn : String → String) (s : World) :
    Request :=
  { URL := s.r.URL
    Header := annotate s.r.Header (sprintfD s.clock)
      (scaleResult scaler gsn s).SendSetReplicasTs
      (scaleResult scaler gsn s).ResponseSetReplicasTs }

theorem handler_forward (next : HandlerFunc) (scaler : FunctionScaler)
    (gsn : String → String) (s : World)
    (hf : (scaleResult scaler gsn s).Found = true)
    (he : (scaleResult scaler gsn s).Error = none)
    (ha : (scaleResult scaler gsn s).Available = true) :
    MakeScalingHandler next scaler gsn s = Outcome.returned
      { w := (next (annotatedWriter scaler gsn s) (annotatedRequest scaler gsn s)).1
        r := (next (annotatedWriter scaler gsn s) (annotatedRequest scaler gsn s)).2
        clock := (scaler.Scale (gsn s.r.URL) s.clock).2
        log := s.log ++ [⟨"Getting service name", []⟩, ⟨"Check function scale", []⟩,
          ⟨"Add headers..", []⟩,
          ⟨"Adding start and post scale timestamps on request header", []⟩]
        served := s.served ++
          [(annotatedWriter scaler gsn s, annotatedRequest scaler gsn s)] } := by
  simp only [scaleResult] at hf he ha
  simp [MakeScalingHandler, World.Printf, hf, he, ha, annotatedWriter, annotatedRequest,
    annotate, scaleResult]

theorem handler_timedOut (next : HandlerFunc) (scaler : FunctionScaler)
    (gsn : String → String) (s : World)
    (hf : (scaleResult scaler gsn s).Found = true)
    (he : (scaleResult scaler gsn s).Error = none)
    (ha : (scaleResult scaler gsn s).Available = false) :
    MakeScalingHandler next scaler gsn s = Outcome.returned
      { w := annotatedWriter scaler gsn s
        r := annotatedRequest scaler gsn s
        clock := (scaler.Scale (gsn s.r.URL) s.clock).2
        log := s.log ++ [⟨"Getting service name", []⟩, ⟨"Check function scale", []⟩,
          ⟨"Add headers..", []⟩,
          ⟨"Adding start and post scale timestamps on request header", []⟩,
          ⟨"[Scale] function=%s 0=>N timed-out after %f seconds",
            [LogArg.str (gsn s.r.URL),
              LogArg.seconds (scaleResult scaler gsn s).Duration]⟩]
        served := s.served } := by
  simp only [scaleResult] at hf he ha
  simp [MakeScalingHandler, World.Printf, hf, he, ha, annotatedWriter, annotatedRequest,
    annotate, scaleResult]

theorem annotatedWriter_start (scaler : FunctionScaler) (gsn : String → String)
    (s : World) :
    (annotatedWriter scaler gsn s).Header "X-Scale-Start-Time"
      = s.w.Header "X-Scale-Start-Time" ++ [sprintfD s.clock] := by
  simp only [annotatedWriter, annotate_start]

theorem annotatedWriter_send (scaler : FunctionScaler) (gsn : String → String)
    (s : World) :
    (annotatedWriter scaler gsn s).Header "X-Scale-Post-Send-Time"
      = s.w.Header "X-Scale-Post-Send-Time"
        ++ [(scaleResult scaler gsn s).SendSetReplicasTs] := by
  simp only [annotatedWriter, annotate_send]

theorem annotatedWriter_response (scaler : FunctionScaler) (gsn : String → String)
    (s : World) :
    (annotatedWriter scaler gsn s).Header "X-Scale-Post-Response-Time"
      = s.w.Header "X-Scale-Post-Response-Time"
        ++ [(scaleResult scaler gsn s).ResponseSetReplicasTs] := by
  simp only [annotatedWriter, annotate_response]

theorem annotatedRequest_start (scaler : FunctionScaler) (gsn : String → String)
    (s : World) :
    (annotatedRequest scaler gsn s).Header "X-Scale-Start-Time"
      = s.r.Header "X-Scale-Start-Time" ++ [sprintfD s.clock] := by
  simp only [annotatedRequest, annotate_start]

theorem annotatedRequest_send (scaler : FunctionScaler) (gsn : String → String)
    (s : World) :
    (annotatedRequest scaler gsn s).Header "X-Scale-Post-Send-Time"
      = s.r.Header "X-Scale-Post-Send-Time"
        ++ [(scaleResult scaler gsn s).SendSetReplicasTs] := by
  simp only [annotatedRequest, annotate_send]

theorem annotatedRequest_response (scaler : FunctionScaler) (gsn : String → String)
    (s : World) :
    (annotatedRequest scaler gsn s).Header "X-Scale-Post-Response-Time"
      = s.r.Header "X-Scale-Post-Response-Time"
        ++ [(scaleResult scaler gsn s).ResponseSetReplicasTs] := by
  simp only [annotatedRequest, annotate_response]

/-! ## The error paths -/

/-- C1: for every request and every scale result with found=false and a non-nil
error, the handler returns, the writer calls it makes hold the status 404 once
and no other status, and it makes no call of the next handler. -/
theorem notFound_writes_404_once (next : HandlerFunc) (scaler : FunctionScaler)
    (gsn : String → String) (s : World)
    (hf : (scaleResult scaler gsn s).Found = false)
    (he : (scaleResult scaler gsn s).Error ≠ none) :
    (MakeScalingHandler next scaler gsn s).isPanic = false ∧
    (∃ own, (MakeScalingHandler next scaler gsn s).world.w.calls = s.w.calls ++ own ∧
      statusCodes own = [404]) ∧
    (MakeScalingHandler next scaler gsn s).world.served = s.served := by
  obtain ⟨e, he⟩ := Option.ne_none_iff_exists'.mp he
  rw [handler_notFound next scaler gsn s e hf he]
  exact ⟨rfl, ⟨_, rfl, rfl⟩, rfl⟩

theorem notFound_writes_404_once_witness :
    (scaleResult (constScaler resNotFound) figletName sampleWorld).Found = false ∧
    (scaleResult (constScaler resNotFound) figletName sampleWorld).Error ≠ none ∧
    ((MakeScalingHandler okNext (constScaler resNotFound) figletName sampleWorld).isPanic
        = false ∧
      (∃ own, (MakeScalingHandler okNext (constScaler resNotFound) figletName
          sampleWorld).world.w.calls = sampleWorld.w.calls ++ own ∧
        statusCodes own = [404]) ∧
      (MakeScalingHandler okNext (constScaler resNotFound) figletName
        sampleWorld).world.served = sampleWorld.served) :=
  ⟨rfl, by simp [scaleResult, constScaler, resNotFound],
    notFound_writes_404_once okNext (constScaler resNotFound) figletName sampleWorld rfl
      (by simp [scaleResult, constScaler, resNotFound])⟩

/-- C2: for every request and every scale result with found=true and a non-nil
error, the handler returns, the writer calls it makes hold the status 500 once
and no other status, and it makes no call of the next handler. -/
theorem failed_writes_500_once (next : HandlerFunc) (scaler : FunctionScaler)
    (gsn : String → String) (s : World)
    (hf : (scaleResult scaler gsn s).Found = true)
    (he : (scaleResult scaler gsn s).Error ≠ none) :
    (MakeScalingHandler next scaler gsn s).isPanic = false ∧
    (∃ own, (MakeScalingHandler next scaler gsn s).world.w.calls = s.w.calls ++ own ∧
      statusCodes own = [500]) ∧
    (MakeScalingHandler next scaler gsn s).world.served = s.served := by
  obtain ⟨e, he⟩ := Option.ne_none_iff_exists'.mp he
  rw [handler_failed next scaler gsn s e hf he]
  exact ⟨rfl, ⟨_, rfl, rfl⟩, rfl⟩

theorem failed_writes_500_once_witness :
    (scaleResult (constScaler resFailed) figletName sampleWorld).Found = true ∧
    (scaleResult (constScaler resFailed) figletName sampleWorld).Error ≠ none ∧
    ((MakeScalingHandler okNext (constScaler resFailed) figletName sampleWorld).isPanic
        = false ∧
      (∃ own, (MakeScalingHandler okNext (constScaler resFailed) figletName
          sampleWorld).world.w.calls = sampleWorld.w.calls ++ own ∧
        statusCodes own = [500]) ∧
      (MakeScalingHandler okNext (constScaler resFailed) figletName
        sampleWorld).world.served = sampleWorld.served) :=
  ⟨rfl, by simp [scaleResult, constScaler, resFailed],
    failed_writes_500_once okNext (constScaler resFailed) figletName sampleWorld rfl
      (by simp [scaleResult, constScaler, resFailed])⟩

/-- C8: for every function name and every scale result with a non-nil error of
message `e`, found or not, the handler makes two writer calls, the status first
and then one body, and the body is "error finding function ", the function
name, ": " and `e`, so that it holds the function name and the error text. -/
theorem failure_body_names_function_and_error (next : HandlerFunc)
    (scaler : FunctionScaler) (gsn : String → String) (s : World) (e : String)
    (he : (scaleResult scaler gsn s).Error = some e) :
    (∃ code, (MakeScalingHandler next scaler gsn s).world.w.calls = s.w.calls ++
      [WriterCall.WriteHeader code,
        WriterCall.Write ("error finding function " ++ gsn s.r.URL ++ ": " ++ e)]) ∧
    (gsn s.r.URL).data <:+: ("error finding function " ++ gsn s.r.URL ++ ": " ++ e).data ∧
    e.data <:+: ("error finding function " ++ gsn s.r.URL ++ ": " ++ e).data := by
  refine ⟨?_, ?_, ?_⟩
  · cases hf : (scaleResult scaler gsn s).Found
    · rw [handler_notFound next scaler gsn s e hf he]
      exact ⟨404, rfl⟩
    · rw [handler_failed next scaler gsn s e hf he]
      exact ⟨500, rfl⟩
  · refine ⟨"error finding function ".data, (": " ++ e).data, ?_⟩
    simp [String.data_append]
  · refine ⟨("error finding function " ++ gsn s.r.URL ++ ": ").data, [], ?_⟩
    simp [String.data_append]

theorem failure_body_names_function_and_error_witness :
    (scaleResult (constScaler resFailed) figletName sampleWorld).Error
        = some "unable to scale" ∧
    ((∃ code, (MakeScalingHandler okNext (constScaler resFailed) figletName
        sampleWorld).world.w.calls = sampleWorld.w.calls ++
        [WriterCall.WriteHeader code,
          WriterCall.Write ("error finding function " ++ figletName sampleWorld.r.URL
            ++ ": " ++ "unable to scale")]) ∧
      (figletName sampleWorld.r.URL).data <:+:
        ("error finding function " ++ figletName sampleWorld.r.URL ++ ": "
          ++ "unable to scale").data ∧
      ("unable to scale" : String).data <:+:
        ("error finding function " ++ figletName sampleWorld.r.URL ++ ": "
          ++ "unable to scale").data) :=
  ⟨rfl, failure_body_names_function_and_error okNext (constScaler resFailed) figletName
    sampleWorld "unable to scale" rfl⟩

/-! ## Forwarding -/

/-- C3: for every request and every scale result, when found=true, error=nil and
available=true the handler makes exactly one call of the next handler, the
request of that call carries the three timing headers, the writer of that call
has received no call from the handler, and the handler ends with what the next
handler made of them; in every other case it makes no call of the next
handler. -/
theorem next_invoked_iff_available (next : HandlerFunc) (scaler : FunctionScaler)
    (gsn : String → String) (s : World) :
    (((scaleResult scaler gsn s).Found = true ∧ (scaleResult scaler gsn s).Error = none ∧
        (scaleResult scaler gsn s).Available = true) →
      ∃ w r, (MakeScalingHandler next scaler gsn s).world.served = s.served ++ [(w, r)] ∧
        (MakeScalingHandler next scaler gsn s).isPanic = false ∧
        (MakeScalingHandler next scaler gsn s).world.w = (next w r).1 ∧
        (MakeScalingHandler next scaler gsn s).world.r = (next w r).2 ∧
        w.calls = s.w.calls ∧
        r.URL = s.r.URL ∧
        r.Header "X-Scale-Start-Time"
          = s.r.Header "X-Scale-Start-Time" ++ [sprintfD s.clock] ∧
        r.Header "X-Scale-Post-Send-Time"
          = s.r.Header "X-Scale-Post-Send-Time"
            ++ [(scaleResult scaler gsn s).SendSetReplicasTs] ∧
        r.Header "X-Scale-Post-Response-Time"
          = s.r.Header "X-Scale-Post-Response-Time"
            ++ [(scaleResult scaler gsn s).ResponseSetReplicasTs]) ∧
    (¬((scaleResult scaler gsn s).Found = true ∧ (scaleResult scaler gsn s).Error = none ∧
        (scaleResult scaler gsn s).Available = true) →
      (MakeScalingHandler next scaler gsn s).world.served = s.served) := by
  constructor
  · rintro ⟨hf, he, ha⟩
    rw [handler_forward next scaler gsn s hf he ha]
    exact ⟨annotatedWriter scaler gsn s, annotatedRequest scaler gsn s, rfl, rfl, rfl, rfl,
      rfl, rfl, annotatedRequest_start scaler gsn s, annotatedRequest_send scaler gsn s,
      annotatedRequest_response scaler gsn s⟩
  · intro h
    cases hf : (scaleResult scaler gsn s).Found
    · cases he : (scaleResult scaler gsn s).Error with
      | none => rw [handler_nilError next scaler gsn s hf he]; rfl
      | some e => rw [handler_notFound next scaler gsn s e hf he]; rfl
    · cases he : (scaleResult scaler gsn s).Error with
      | some e => rw [handler_failed next scaler gsn s e hf he]; rfl
      | none =>
        cases ha : (scaleResult scaler gsn s).Available
        · rw [handler_timedOut next scaler gsn s hf he ha]; rfl
        · exact absurd ⟨hf, he, ha⟩ h

/-! ## Timing headers -/

/-- Both ways a call with found=true and error=nil can end leave the annotated
writer and request. -/
theorem leftAs_annotated (next : HandlerFunc) (scaler : FunctionScaler)
    (gsn : String → String) (s : World)
    (hf : (scaleResult scaler gsn s).Found = true)
    (he : (scaleResult scaler gsn s).Error = none) :
    LeftAs next s (MakeScalingHandler next scaler gsn s)
      (annotatedWriter scaler gsn s) (annotatedRequest scaler gsn s) := by
  cases ha : (scaleResult scaler gsn s).Available
  · rw [handler_timedOut next scaler gsn s hf he ha]
    exact Or.inr ⟨rfl, rfl, rfl⟩
  · rw [handler_forward next scaler gsn s hf he ha]
    exact Or.inl ⟨rfl, rfl, rfl⟩

/-- Every way a call without both found=true and error=nil can end leaves the
writer and the request it started with, up to the writer calls. -/
theorem leftAs_unannotated (next : HandlerFunc) (scaler : FunctionScaler)
    (gsn : String → String) (s : World)
    (h : ¬((scaleResult scaler gsn s).Found = true ∧
      (scaleResult scaler gsn s).Error = none)) :
    LeftAs next s (MakeScalingHandler next scaler gsn s)
        (MakeScalingHandler next scaler gsn s).world.w s.r ∧
      (MakeScalingHandler next scaler gsn s).world.w.Header = s.w.Header := by
  cases hf : (scaleResult scaler gsn s).Found
  · cases he : (scaleResult scaler gsn s).Error with
    | none =>
      rw [handler_nilError next scaler gsn s hf he]
      exact ⟨Or.inr ⟨rfl, rfl, rfl⟩, rfl⟩
    | some e =>
      rw [handler_notFound next scaler gsn s e hf he]
      exact ⟨Or.inr ⟨rfl, rfl, rfl⟩, rfl⟩
  · cases he : (scaleResult scaler gsn s).Error with
    | some e =>
      rw [handler_failed next scaler gsn s e hf he]
      exact ⟨Or.inr ⟨rfl, rfl, rfl⟩, rfl⟩
    | none => exact absurd ⟨hf, he⟩ h

/-- C5: for every request and every scale result with found=true and error=nil,
the writer and the request the handler leaves (those it hands to the next
handler, or the final ones when it does not forward) each have appended, with
the same value on both sides: under X-Scale-Start-Time the value `start`, which
is what `fmt.Sprintf("%d", …)` makes of the clock read before the scaler was
called and is the base-10 integer rendering of that clock reading; under
X-Scale-Post-Send-Time the result's SendSetReplicasTs; and under
X-Scale-Post-Response-Time the result's ResponseSetReplicasTs. -/
theorem timing_headers_on_both_sides (next : HandlerFunc) (scaler : FunctionScaler)
    (gsn : String → String) (s : World)
    (hf : (scaleResult scaler gsn s).Found = true)
    (he : (scaleResult scaler gsn s).Error = none) :
    ∃ w r start, LeftAs next s (MakeScalingHandler next scaler gsn s) w r ∧
      start = sprintfD s.clock ∧
      isBase10 s.clock start = true ∧
      w.Header "X-Scale-Start-Time" = s.w.Header "X-Scale-Start-Time" ++ [start] ∧
      r.Header "X-Scale-Start-Time" = s.r.Header "X-Scale-Start-Time" ++ [start] ∧
      w.Header "X-Scale-Post-Send-Time"
        = s.w.Header "X-Scale-Post-Send-Time"
          ++ [(scaler.Scale (gsn s.r.URL) s.clock).1.SendSetReplicasTs] ∧
      r.Header "X-Scale-Post-Send-Time"
        = s.r.Header "X-Scale-Post-Send-Time"
          ++ [(scaler.Scale (gsn s.r.URL) s.clock).1.SendSetReplicasTs] ∧
      w.Header "X-Scale-Post-Response-Time"
        = s.w.Header "X-Scale-Post-Response-Time"
          ++ [(scaler.Scale (gsn s.r.URL) s.clock).1.ResponseSetReplicasTs] ∧
      r.Header "X-Scale-Post-Response-Time"
        = s.r.Header "X-Scale-Post-Response-Time"
          ++ [(scaler.Scale (gsn s.r.URL) s.clock).1.ResponseSetReplicasTs] :=
  ⟨annotatedWriter scaler gsn s, annotatedRequest scaler gsn s, sprintfD s.clock,
    leftAs_annotated next scaler gsn s hf he, rfl, sprintfD_isBase10 s.clock,
    annotatedWriter_start scaler gsn s, annotatedRequest_start scaler gsn s,
    annotatedWriter_send scaler gsn s, annotatedRequest_send scaler gsn s,
    annotatedWriter_response scaler gsn s, annotatedRequest_response scaler gsn s⟩

theorem timing_headers_on_both_sides_witness :
    (scaleResult (constScaler resAvailable) figletName sampleWorld).Found = true ∧
    (scaleResult (constScaler resAvailable) figletName sampleWorld).Error = none ∧
    sampleWorld.clock = 1000 ∧
    (∃ w r, LeftAs okNext sampleWorld
        (MakeScalingHandler okNext (constScaler resAvailable) figletName sampleWorld) w r ∧
      w.Header "X-Scale-Start-Time" = ["1000"] ∧
      r.Header "X-Scale-Start-Time" = ["7", "1000"] ∧
      w.Header "X-Scale-Post-Send-Time" = ["1001"] ∧
      r.Header "X-Scale-Post-Send-Time" = ["1001"] ∧
      w.Header "X-Scale-Post-Response-Time" = ["1002"] ∧
      r.Header "X-Scale-Post-Response-Time" = ["1002"]) := by
  obtain ⟨w, r, start, hl, hs, _, h1, h2, h3, h4, h5, h6⟩ :=
    timing_headers_on_both_sides okNext (constScaler resAvailable) figletName sampleWorld
      rfl rfl
  have hlit : start = "1000" := hs.trans (by decide)
  subst hlit
  exact ⟨rfl, rfl, rfl, w, r, hl, h1.trans (by decide), h2.trans (by decide),
    h3.trans (by decide), h4.trans (by decide), h5.trans (by decide),
    h6.trans (by decide)⟩

/-- C7: for every request and every scale result, the writer and the request
the handler leaves have a value appended under each of the three timing header
names if and only if found=true and error=nil (forwarded or timed out); in
every other case (404, 500) their header maps are the ones it started with. -/
theorem timing_headers_iff_found_without_error (next : HandlerFunc)
    (scaler : FunctionScaler) (gsn : String → String) (s : World) :
    ∃ w r, LeftAs next s (MakeScalingHandler next scaler gsn s) w r ∧
      ((∀ k ∈ timingHeaders, ∃ v,
          w.Header k = s.w.Header k ++ [v] ∧ r.Header k = s.r.Header k ++ [v]) ↔
        ((scaleResult scaler gsn s).Found = true ∧
          (scaleResult scaler gsn s).Error = none)) ∧
      (¬((scaleResult scaler gsn s).Found = true ∧
          (scaleResult scaler gsn s).Error = none) →
        w.Header = s.w.Header ∧ r.Header = s.r.Header) := by
  by_cases h : (scaleResult scaler gsn s).Found = true ∧
      (scaleResult scaler gsn s).Error = none
  · refine ⟨annotatedWriter scaler gsn s, annotatedRequest scaler gsn s,
      leftAs_annotated next scaler gsn s h.1 h.2, ⟨fun _ => h, fun _ k hk => ?_⟩,
      fun hn => absurd h hn⟩
    simp only [timingHeaders, List.mem_cons, List.mem_singleton, List.not_mem_nil,
      or_false] at hk
    rcases hk with rfl | rfl | rfl
    · exact ⟨_, annotatedWriter_start scaler gsn s, annotatedRequest_start scaler gsn s⟩
    · exact ⟨_, annotatedWriter_send scaler gsn s, annotatedRequest_send scaler gsn s⟩
    · exact ⟨_, annotatedWriter_response scaler gsn s,
        annotatedRequest_response scaler gsn s⟩
  · obtain ⟨hl, hh⟩ := leftAs_unannotated next scaler gsn s h
    refine ⟨_, s.r, hl, ⟨fun hadd => ?_, fun hyes => absurd hyes h⟩, fun _ => ⟨hh, rfl⟩⟩
    obtain ⟨v, _, hr⟩ := hadd "X-Scale-Start-Time" (by simp [timingHeaders])
    have hlen := congrArg List.length hr
    simp at hlen

/-- C10: for every request and every scale result, the handler only appends to
headers. Under every name the values the writer and the request had are a
prefix of the values they are left with; under a name other than the three
timing names the values are the same; when found=true and error=nil each timing
name gets one value appended after the values already there; and when the
error is non-nil (404 and 500) both header maps are the ones it started with. -/
theorem headers_only_appended (next : HandlerFunc) (scaler : FunctionScaler)
    (gsn : String → String) (s : World) :
    ∃ w r, LeftAs next s (MakeScalingHandler next scaler gsn s) w r ∧
      (∀ k, s.w.Header k <+: w.Header k ∧ s.r.Header k <+: r.Header k) ∧
      (∀ k, k ∉ timingHeaders → w.Header k = s.w.Header k ∧ r.Header k = s.r.Header k) ∧
      (((scaleResult scaler gsn s).Found = true ∧
          (scaleResult scaler gsn s).Error = none) →
        ∀ k ∈ timingHeaders, ∃ v,
          w.Header k = s.w.Header k ++ [v] ∧ r.Header k = s.r.Header k ++ [v]) ∧
      ((scaleResult scaler gsn s).Error ≠ none →
        w.Header = s.w.Header ∧ r.Header = s.r.Header) := by
  by_cases h : (scaleResult scaler gsn s).Found = true ∧
      (scaleResult scaler gsn s).Error = none
  · refine ⟨annotatedWriter scaler gsn s, annotatedRequest scaler gsn s,
      leftAs_annotated next scaler gsn s h.1 h.2,
      fun k => ⟨annotate_keeps _ _ _ _ k, annotate_keeps _ _ _ _ k⟩,
      fun k hk => ⟨annotate_other _ _ _ _ k hk, annotate_other _ _ _ _ k hk⟩,
      fun _ k hk => ?_, fun hn => absurd h.2 hn⟩
    simp only [timingHeaders, List.mem_cons, List.mem_singleton, List.not_mem_nil,
      or_false] at hk
    rcases hk with rfl | rfl | rfl
    · exact ⟨_, annotatedWriter_start scaler gsn s, annotatedRequest_start scaler gsn s⟩
    · exact ⟨_, annotatedWriter_send scaler gsn s, annotatedRequest_send scaler gsn s⟩
    · exact ⟨_, annotatedWriter_response scaler gsn s,
        annotatedRequest_response scaler gsn s⟩
  · obtain ⟨hl, hh⟩ := leftAs_unannotated next scaler gsn s h
    refine ⟨_, s.r, hl, fun k => ⟨?_, List.prefix_refl _⟩, fun k _ => ⟨?_, rfl⟩,
      fun hyes => absurd hyes h, fun _ => ⟨hh, rfl⟩⟩
    · rw [hh]
    · rw [hh]

/-! ## The two paths that leave the client without an answer -/

/-- C4: at a scale result with found=true, error=nil and available=false the
handler returns having made no writer call at all, so no status 504 or any
other, and no call of the next handler; it has only added the timing headers
and logged the time-out. -/
theorem timedOut_writes_no_status :
    (scaleResult (constScaler resTimedOut) figletName sampleWorld).Found = true ∧
    (scaleResult (constScaler resTimedOut) figletName sampleWorld).Error = none ∧
    (scaleResult (constScaler resTimedOut) figletName sampleWorld).Available = false ∧
    (MakeScalingHandler okNext (constScaler resTimedOut) figletName sampleWorld).isPanic
      = false ∧
    (MakeScalingHandler okNext (constScaler resTimedOut) figletName
      sampleWorld).world.w.calls = [] ∧
    statusCodes (MakeScalingHandler okNext (constScaler resTimedOut) figletName
      sampleWorld).world.w.calls = [] ∧
    (MakeScalingHandler okNext (constScaler resTimedOut) figletName
      sampleWorld).world.served = [] ∧
    (MakeScalingHandler okNext (constScaler resTimedOut) figletName
      sampleWorld).world.log.getLast? =
        some ⟨"[Scale] function=%s 0=>N timed-out after %f seconds",
          [LogArg.str "figlet", LogArg.seconds 3]⟩ :=
  ⟨rfl, rfl, rfl, rfl, rfl, rfl, rfl, rfl⟩

/-- C6: at a scale result with found=false and error=nil the handler panics on
`res.Error.Error()`, before any writer call: no status and no body have been
written when the panic unwinds it. -/
theorem nil_error_not_found_panics :
    (scaleResult (constScaler resNotFoundNoError) figletName sampleWorld).Found = false ∧
    (scaleResult (constScaler resNotFoundNoError) figletName sampleWorld).Error = none ∧
    (MakeScalingHandler okNext (constScaler resNotFoundNoError) figletName
      sampleWorld).isPanic = true ∧
    (MakeScalingHandler okNext (constScaler resNotFoundNoError) figletName
      sampleWorld).world.w.calls = [] ∧
    (MakeScalingHandler okNext (constScaler resNotFoundNoError) figletName
      sampleWorld).world.served = [] :=
  ⟨rfl, rfl, rfl, rfl, rfl⟩

end Handlers
